import Mathlib

/-!
Shallow embedding of the WaterRejectionTouch engine
(src/WaterRejectionTouch.h, src/WaterRejectionTouch.cpp).

Machine integers are modelled as `Nat`/`Int` with explicit wraparound:
`uint32_t` subtraction/addition/increment through `sub32`/`add32`/`inc32`,
the `uint8_t` zone counter increment through `inc8`.  Timestamps (the
Arduino `millis()` clock and `TouchPoint.timestamp`) are `Nat` values
meant to be below `2^32`.  Coordinates (`int16_t`) are `Int`; in C they
are promoted to `int` before every comparison and subtraction that the
engine performs, so no 16-bit wraparound occurs there.
-/

namespace WaterRejection

/-- Wraparound subtraction of two `uint32_t` values (`a - b` in C).
For `b ≤ a < 2^32` this is ordinary subtraction. -/
def sub32 (a b : Nat) : Nat := (a + 4294967296 - b % 4294967296) % 4294967296

/-- Wraparound addition of two `uint32_t` values (`a + b` in C). -/
def add32 (a b : Nat) : Nat := (a + b) % 4294967296

/-- `uint32_t` increment (the `counter++` statements). -/
def inc32 (a : Nat) : Nat := (a + 1) % 4294967296

/-- `uint8_t` increment (the `touchCount++` statements). -/
def inc8 (a : Nat) : Nat := (a + 1) % 256

/-- struct TouchPoint (WaterRejectionTouch.h:27-34).  `x`,`y` are
`int16_t` (modelled as `Int`), `timestamp` is `uint32_t`, `pressure`
`uint8_t`, `area` `uint16_t`. -/
structure TouchPoint where
  x : Int
  y : Int
  timestamp : Nat
  pressure : Nat
  area : Nat
  valid : Bool
deriving DecidableEq

/-- struct WaterRejectionConfig (WaterRejectionTouch.h:46-75). -/
structure WaterRejectionConfig where
  maxTouchArea : Nat
  minMovement : Nat
  maxStaticTime : Nat
  maxSimultaneousTouches : Nat
  touchTimeout : Nat
  gestureTimeout : Nat
  requireGesture : Bool
  edgeSwipeThreshold : Nat
  swipeMinDistance : Nat
  debounceTime : Nat
  pressureThreshold : Nat
deriving DecidableEq

/-- Capacitive-screen config defaults (WaterRejectionTouch.h:61-74). -/
def capacitiveDefaults : WaterRejectionConfig :=
  { maxTouchArea := 50, minMovement := 5, maxStaticTime := 500,
    maxSimultaneousTouches := 2, touchTimeout := 1000, gestureTimeout := 500,
    requireGesture := false, edgeSwipeThreshold := 50, swipeMinDistance := 150,
    debounceTime := 0, pressureThreshold := 0 }

/-- Resistive-screen config defaults (WaterRejectionTouch.h:47-59). -/
def resistiveDefaults : WaterRejectionConfig :=
  { maxTouchArea := 80, minMovement := 10, maxStaticTime := 800,
    maxSimultaneousTouches := 1, touchTimeout := 1500, gestureTimeout := 700,
    requireGesture := false, edgeSwipeThreshold := 50, swipeMinDistance := 150,
    debounceTime := 50, pressureThreshold := 300 }

/-- enum GestureState (WaterRejectionTouch.h:105-109). -/
inductive GestureState where
  | idle
  | waiting
  | gActive
deriving DecidableEq

/-- enum ScreenType (WaterRejectionTouch.h:124-127). -/
inductive ScreenType where
  | capacitive
  | resistive
deriving DecidableEq

/-- struct TouchZone (WaterRejectionTouch.h:82-87).  `touchCount` is a
`uint8_t`. -/
structure TouchZone where
  zoneActive : Bool
  activationTime : Nat
  touchCount : Nat
  lastTouchTime : Nat
deriving DecidableEq

/-- A zeroed TouchZone (the `memset(zones, 0, ...)` initialisation). -/
def defaultZone : TouchZone :=
  { zoneActive := false, activationTime := 0, touchCount := 0, lastTouchTime := 0 }

/-- The 20 × 20 zone grid (`ZONE_GRID_SIZE = 20`), as a total map from
cell indices to cells; only indices below 20 are ever touched. -/
def Zones := Nat → Nat → TouchZone

/-- Writing one cell of the zone grid (`zones[x][y] = z`). -/
def setZone (zs : Zones) (x y : Nat) (z : TouchZone) : Zones :=
  fun a b => if a = x ∧ b = y then z else zs a b

/-- The mutable state of one WaterRejectionTouch instance
(WaterRejectionTouch.h:77-132).  `multiTouchPoints`/`currentTouchCount`
are omitted: the batch analyzer is modelled standalone below. -/
structure WRTState where
  config : WaterRejectionConfig
  screenType : ScreenType
  screenWidth : Nat
  screenHeight : Nat
  touchHistory : List TouchPoint
  historyIndex : Nat
  zones : Zones
  gestureState : GestureState
  gestureStateTimeout : Nat
  gestureStartPoint : TouchPoint
  waterDropletsRejected : Nat
  validTouches : Nat
  lastValidTouchTime : Nat
  lastValidTouch : TouchPoint

/-- A zeroed TouchPoint (`memset` initialisation of history slots and
`lastValidTouch`); its `valid` flag is false. -/
def zeroTouch : TouchPoint :=
  { x := 0, y := 0, timestamp := 0, pressure := 0, area := 0, valid := false }

/-- The state right after the constructor and `begin()`
(WaterRejectionTouch.cpp:12-49): all tracking data zeroed, `HISTORY_SIZE
= 20` invalid history slots, gesture Idle, counters zero. -/
def initState (w h : Nat) (st : ScreenType) (cfg : WaterRejectionConfig) : WRTState :=
  { config := cfg, screenType := st, screenWidth := w, screenHeight := h,
    touchHistory := List.replicate 20 zeroTouch, historyIndex := 0,
    zones := fun _ _ => defaultZone,
    gestureState := GestureState.idle, gestureStateTimeout := 0,
    gestureStartPoint := zeroTouch,
    waterDropletsRejected := 0, validTouches := 0,
    lastValidTouchTime := 0, lastValidTouch := zeroTouch }

/-- Zone column of a touch: `(touch.x * ZONE_GRID_SIZE) / screenWidth`
(WaterRejectionTouch.cpp:175,306).  Callers only reach this after the
bounds check, so `touch.x ≥ 0` and `Int.toNat` is faithful. -/
def zoneXof (t : TouchPoint) (s : WRTState) : Nat := (t.x.toNat * 20) / s.screenWidth

/-- Zone row of a touch: `(touch.y * ZONE_GRID_SIZE) / screenHeight`. -/
def zoneYof (t : TouchPoint) (s : WRTState) : Nat := (t.y.toNat * 20) / s.screenHeight

/-- The offsets of the `dx, dy ∈ {-1,0,1}` double loop in
`checkZoneActivity` (WaterRejectionTouch.cpp:204-205), in loop order.
Note the loop includes `(0,0)`, the cell itself. -/
def neighborOffsets : List (Int × Int) :=
  [(-1,-1),(-1,0),(-1,1),(0,-1),(0,0),(0,1),(1,-1),(1,0),(1,1)]

/-- One iteration of the neighbor loop body (WaterRejectionTouch.cpp:206-215):
the cell at `(nx, ny)` counts when the (uint8-wrapped, here clipped)
indices are inside the grid, the cell is active, and its activation age
is under `config.touchTimeout`.  The C code computes `nx` as a `uint8_t`,
so a `-1` offset at index 0 wraps to 255 and fails `nx <
ZONE_GRID_SIZE`; for indices below 20 that is exactly the `0 ≤ nx < 20`
clipping used here. -/
def neighborActive (zs : Zones) (now timeout : Nat) (nx ny : Int) : Bool :=
  decide (0 ≤ nx) && decide (nx < 20) && decide (0 ≤ ny) && decide (ny < 20) &&
    ((zs nx.toNat ny.toNat).zoneActive &&
      decide (sub32 now (zs nx.toNat ny.toNat).activationTime < timeout))

/-- The `activeNeighbors` count of `checkZoneActivity`
(WaterRejectionTouch.cpp:203-217): all nine cells of the 3×3 block
centred on `(zx, zy)`, the centre included. -/
def activeNeighborCount (zs : Zones) (zx zy now timeout : Nat) : Nat :=
  neighborOffsets.countP (fun d =>
    neighborActive zs now timeout ((zx : Int) + d.1) ((zy : Int) + d.2))

/-- Modelled from the spec's words, not from the code: the count over
the "8 neighboring cells" with the sample's own cell excluded, as claim
C5 describes the spread check.  Used only to exhibit the divergence from
the source, whose loop includes the `(0,0)` offset. -/
def specNeighborOffsets : List (Int × Int) :=
  [(-1,-1),(-1,0),(-1,1),(0,-1),(0,1),(1,-1),(1,0),(1,1)]

/-- Modelled from the spec's words (see `specNeighborOffsets`): active
recent cells among the 8 proper neighbors only. -/
def specNeighborCount (zs : Zones) (zx zy now timeout : Nat) : Nat :=
  specNeighborOffsets.countP (fun d =>
    neighborActive zs now timeout ((zx : Int) + d.1) ((zy : Int) + d.2))

/-- `WaterRejectionTouch::checkZoneActivity` (WaterRejectionTouch.cpp:186-221).
`now` is the `millis()` reading.  When the cell is active and was
(re)activated under 100 ms ago, its `touchCount` is incremented (a
mutation that persists even when the function returns false) and the
function returns true once the count exceeds 3.  Otherwise the function
returns whether more than 4 cells of the 3×3 neighborhood are active
with activation age under the zone timeout. -/
def checkZoneActivity (zx zy now : Nat) (s : WRTState) : Bool × WRTState :=
  let z := s.zones zx zy
  if z.zoneActive ∧ sub32 now z.activationTime < 100 then
    let z' := { z with touchCount := inc8 z.touchCount }
    let s' := { s with zones := setZone s.zones zx zy z' }
    if 3 < z'.touchCount then (true, s')
    else (decide (4 < activeNeighborCount s'.zones zx zy now s.config.touchTimeout), s')
  else
    (decide (4 < activeNeighborCount s.zones zx zy now s.config.touchTimeout), s)

/-- `WaterRejectionTouch::isWaterPattern` (WaterRejectionTouch.cpp:168-183):
area test, then the zone-activity test on the touch's cell. -/
def isWaterPattern (t : TouchPoint) (now : Nat) (s : WRTState) : Bool × WRTState :=
  if s.config.maxTouchArea < t.area then (true, s)
  else if 20 ≤ zoneXof t s ∨ 20 ≤ zoneYof t s then (false, s)
  else checkZoneActivity (zoneXof t s) (zoneYof t s) now s

/-- The per-entry condition of the `isStaticTouch` history scan
(WaterRejectionTouch.cpp:288-296): a valid entry within
`config.maxStaticTime` of the incoming timestamp whose position is
within `config.minMovement` of the incoming position on both axes. -/
def staticMatch (cfg : WaterRejectionConfig) (t p : TouchPoint) : Bool :=
  p.valid && decide (sub32 t.timestamp p.timestamp < cfg.maxStaticTime) &&
    decide ((p.x - t.x).natAbs < cfg.minMovement) &&
    decide ((p.y - t.y).natAbs < cfg.minMovement)

/-- `WaterRejectionTouch::isStaticTouch` (WaterRejectionTouch.cpp:283-302):
reject when more than 5 history entries match. -/
def isStaticTouch (t : TouchPoint) (s : WRTState) : Bool :=
  decide (5 < (s.touchHistory.filter (staticMatch s.config t)).length)

/-- `WaterRejectionTouch::updateZones` (WaterRejectionTouch.cpp:305-320).
The cell's `activationTime` is assigned `touch.timestamp` before the
elapsed-time comparison is made against it. -/
def updateZones (t : TouchPoint) (s : WRTState) : WRTState :=
  let zx := zoneXof t s
  let zy := zoneYof t s
  if zx < 20 ∧ zy < 20 then
    let z := s.zones zx zy
    let z1 := { z with zoneActive := true, activationTime := t.timestamp,
                       lastTouchTime := t.timestamp }
    let z2 := if sub32 t.timestamp z1.activationTime < 100 then
                { z1 with touchCount := inc8 z1.touchCount }
              else { z1 with touchCount := 1 }
    { s with zones := setZone s.zones zx zy z2 }
  else s

/-- `WaterRejectionTouch::updateHistory` (WaterRejectionTouch.cpp:323-326):
circular overwrite at `historyIndex`, modulo `HISTORY_SIZE = 20`. -/
def updateHistory (t : TouchPoint) (s : WRTState) : WRTState :=
  { s with touchHistory := s.touchHistory.set s.historyIndex t,
           historyIndex := (s.historyIndex + 1) % 20 }

/-- `WaterRejectionTouch::clearOldZones` (WaterRejectionTouch.cpp:329-341):
the periodic decay sweep, deactivating cells whose last-touch age
exceeds the zone timeout and zeroing their counters. -/
def clearOldZones (now : Nat) (s : WRTState) : WRTState :=
  { s with zones := fun x y =>
      let z := s.zones x y
      if x < 20 ∧ y < 20 ∧ z.zoneActive ∧
          s.config.touchTimeout < sub32 now z.lastTouchTime then
        { z with zoneActive := false, touchCount := 0 }
      else z }

/-- `WaterRejectionTouch::validateGesture` (WaterRejectionTouch.cpp:344-382).
Uses `touch.timestamp` as the current time. -/
def validateGesture (t : TouchPoint) (s : WRTState) : Bool × WRTState :=
  match s.gestureState with
  | GestureState.idle =>
      if t.x < (s.config.edgeSwipeThreshold : Int) then
        (false, { s with gestureState := GestureState.waiting,
                         gestureStateTimeout := add32 t.timestamp s.config.gestureTimeout,
                         gestureStartPoint := t })
      else (false, s)
  | GestureState.waiting =>
      if s.gestureStateTimeout < t.timestamp then
        (false, { s with gestureState := GestureState.idle })
      else if (s.config.swipeMinDistance : Int) < t.x - s.gestureStartPoint.x then
        (true, { s with gestureState := GestureState.gActive,
                        gestureStateTimeout := add32 t.timestamp 30000 })
      else (false, s)
  | GestureState.gActive =>
      if s.gestureStateTimeout < t.timestamp then
        (false, { s with gestureState := GestureState.idle })
      else (true, s)

/-- The bounds check opening `processTouch` (WaterRejectionTouch.cpp:78-81). -/
def outOfBounds (t : TouchPoint) (s : WRTState) : Bool :=
  decide (t.x < 0) || decide ((s.screenWidth : Int) ≤ t.x) ||
    decide (t.y < 0) || decide ((s.screenHeight : Int) ≤ t.y)

/-- The resistive-only admission block of `processTouch`
(WaterRejectionTouch.cpp:84-104): pressure threshold, then debouncing.
`some r` models an early `return r`; `none` means fall through. -/
def resistiveAdmission (t : TouchPoint) (s : WRTState) : Option Bool :=
  if s.screenType = ScreenType.resistive then
    if 0 < s.config.pressureThreshold ∧ t.pressure < s.config.pressureThreshold then
      some false
    else if 0 < s.config.debounceTime then
      if sub32 t.timestamp s.lastValidTouchTime < s.config.debounceTime then
        if (t.x - s.lastValidTouch.x).natAbs < s.config.minMovement ∧
           (t.y - s.lastValidTouch.y).natAbs < s.config.minMovement then
          some true
        else some false
      else none
    else none
  else none

/-- `WaterRejectionTouch::processTouch(const TouchPoint&)`
(WaterRejectionTouch.cpp:76-133).  `now` is the ambient `millis()`
reading used by `checkZoneActivity`.  Returns the accept/reject boolean
together with the successor state. -/
def processTouch (t : TouchPoint) (now : Nat) (s : WRTState) : Bool × WRTState :=
  if outOfBounds t s then (false, s)
  else
    match resistiveAdmission t s with
    | some r => (r, s)
    | none =>
      let g := if s.config.requireGesture then validateGesture t s else (true, s)
      if g.1 then
        let w := isWaterPattern t now g.2
        if w.1 then
          (false, { w.2 with waterDropletsRejected := inc32 w.2.waterDropletsRejected })
        else if isStaticTouch t w.2 then
          (false, { w.2 with waterDropletsRejected := inc32 w.2.waterDropletsRejected })
        else
          let s3 := updateHistory t w.2
          let s4 := updateZones t s3
          (true, { s4 with lastValidTouchTime := t.timestamp,
                           lastValidTouch := t,
                           validTouches := inc32 s4.validTouches })
      else (false, g.2)

/-- Whether a sample gets past bounds, admission and the gesture gate to
the water-pattern tests (decomposition of `processTouch` used to state
claim C2). -/
def reachesWaterTests (t : TouchPoint) (s : WRTState) : Bool :=
  !outOfBounds t s && (resistiveAdmission t s).isNone &&
    (!s.config.requireGesture || (validateGesture t s).1)

/-- The state at the water-pattern tests: the gesture gate's mutation
has been applied when gating is enabled. -/
def gateState (t : TouchPoint) (s : WRTState) : WRTState :=
  if s.config.requireGesture then (validateGesture t s).2 else s

/-- Whether a sample rejected at the water-pattern stage: area test or
zone-activity test (`isWaterPattern`), else the static-touch test run on
the zone-mutated state, exactly as `processTouch` sequences them. -/
def waterHit (t : TouchPoint) (now : Nat) (s : WRTState) : Bool :=
  (isWaterPattern t now s).1 || isStaticTouch t (isWaterPattern t now s).2

/-- `WaterRejectionTouch::calibrateForEnvironment`
(WaterRejectionTouch.cpp:455-487) acting on the active config: each of
the four technology × environment branches assigns a fixed subset of
fields. -/
def calibrateConfig (st : ScreenType) (wet : Bool) (c : WaterRejectionConfig) :
    WaterRejectionConfig :=
  match st, wet with
  | ScreenType.resistive, true =>
      { c with maxTouchArea := 60, maxStaticTime := 400, maxSimultaneousTouches := 1,
               requireGesture := true, pressureThreshold := 400 }
  | ScreenType.resistive, false =>
      { c with maxTouchArea := 80, maxStaticTime := 800, maxSimultaneousTouches := 1,
               requireGesture := false, pressureThreshold := 300 }
  | ScreenType.capacitive, true =>
      { c with maxTouchArea := 30, maxStaticTime := 300, maxSimultaneousTouches := 1,
               requireGesture := true }
  | ScreenType.capacitive, false =>
      { c with maxTouchArea := 50, maxStaticTime := 500, maxSimultaneousTouches := 2,
               requireGesture := false }

/-- Sum of x coordinates in the colinearity test's accumulation loop
(WaterRejectionTouch.cpp:239-246), for batches of at most 5 points. -/
def sumXs (pts : List TouchPoint) : Int := (pts.map (fun p => p.x)).sum

/-- Sum of y coordinates of the batch. -/
def sumYs (pts : List TouchPoint) : Int := (pts.map (fun p => p.y)).sum

/-- Sum of x·y products of the batch. -/
def sumXYs (pts : List TouchPoint) : Int := (pts.map (fun p => p.x * p.y)).sum

/-- Sum of x² of the batch. -/
def sumX2s (pts : List TouchPoint) : Int := (pts.map (fun p => p.x * p.x)).sum

/-- Sum of y² of the batch.  The C code has no such accumulator — that
is the slip claim C6 is about; this definition is needed to state what
the Pearson coefficient would require. -/
def sumY2s (pts : List TouchPoint) : Int := (pts.map (fun p => p.y * p.y)).sum

/-- Numerator of the code's correlation fraction:
`n * sumXY - sumX * sumY` (WaterRejectionTouch.cpp:249). -/
def colinearityNumerator (pts : List TouchPoint) : Int :=
  (pts.length : Int) * sumXYs pts - sumXs pts * sumYs pts

/-- The squared denominator the code actually computes
(WaterRejectionTouch.cpp:250): `(n*sumX2 - sumX*sumX) * (n*sumY*sumY -
sumY*sumY)`.  The second factor uses `sumY * sumY` where the y-variance
term `n*sumY2 - sumY*sumY` would be needed. -/
def codeColinearityDenSq (pts : List TouchPoint) : Int :=
  ((pts.length : Int) * sumX2s pts - sumXs pts * sumXs pts) *
    ((pts.length : Int) * sumYs pts * sumYs pts - sumYs pts * sumYs pts)

/-- The squared denominator of the Pearson correlation coefficient of x
versus y, which the spec says the colinearity test computes. -/
def pearsonDenSq (pts : List TouchPoint) : Int :=
  ((pts.length : Int) * sumX2s pts - sumXs pts * sumXs pts) *
    ((pts.length : Int) * sumY2s pts - sumYs pts * sumYs pts)

/-- The colinearity sub-test of `checkMultiTouchPattern`
(WaterRejectionTouch.cpp:237-256) for a batch with exact integer inputs:
it fires when `count ≥ 3` and `|num / sqrt(D)| > 0.9`.  For `D > 0` that
float comparison is, in exact arithmetic, `100·num² > 81·D`.  For `D =
0` the C expression divides by zero: the quotient is `±inf` (reject)
when `num ≠ 0` and `NaN` (no reject) when `num = 0` — which again
coincides with `100·num² > 81·0`.  `D < 0` cannot occur: both factors of
`codeColinearityDenSq` are non-negative.  So this squared comparison is
the code's decision, stated without floating point. -/
def codeColinearReject (pts : List TouchPoint) : Bool :=
  decide (3 ≤ pts.length) &&
    decide (81 * codeColinearityDenSq pts <
      100 * colinearityNumerator pts * colinearityNumerator pts)

/-- The decision the spec claims for the colinearity test: Pearson
coefficient magnitude above 0.9, in the same squared form (see
`codeColinearReject` for the equivalence). -/
def pearsonColinearReject (pts : List TouchPoint) : Bool :=
  decide (3 ≤ pts.length) &&
    decide (81 * pearsonDenSq pts <
      100 * colinearityNumerator pts * colinearityNumerator pts)

/-- A touch as built by `processTouch(int16_t x, int16_t y)`
(WaterRejectionTouch.cpp:52-62): default pressure 128, default area 10,
valid, timestamp = `millis()`. -/
def mkTouch (x y : Int) (ts : Nat) : TouchPoint :=
  { x := x, y := y, timestamp := ts, pressure := 128, area := 10, valid := true }

/-- Feed a list of touches through `processTouch` in order, with the
`millis()` clock equal to each touch's timestamp, collecting the
accept/reject results. -/
def runTouches (ts : List TouchPoint) (s : WRTState) : List Bool × WRTState :=
  ts.foldl (fun acc t =>
    let r := processTouch t t.timestamp acc.2
    (acc.1 ++ [r.1], r.2)) ([], s)

/-- Out-of-bounds sample used to instantiate claim C1 (x = 500 on a
400-wide screen). -/
def c1touch : TouchPoint := mkTouch 500 10 0

/-- Freshly initialised 400×300 capacitive engine. -/
def c1state : WRTState := initState 400 300 ScreenType.capacitive capacitiveDefaults

/-- Concrete three-point batch for claim C6: perfectly colinear points
that are sparse (pairwise distances ≥ 141), so the cluster-density check
cannot mask the colinearity decision. -/
def c6line : List TouchPoint := [mkTouch 10 10 0, mkTouch 110 110 0, mkTouch 210 210 0]

/-- Prior config with a per-field override (minMovement = 99) used to
instantiate claim C8. -/
def c8base : WaterRejectionConfig := { capacitiveDefaults with minMovement := 99 }

/-- Resistive engine that has just accepted a touch at (50,50) at time
100, used to instantiate claim C9. -/
def c9state : WRTState :=
  { initState 400 300 ScreenType.resistive resistiveDefaults with
      lastValidTouchTime := 100, lastValidTouch := mkTouch 50 50 100 }

/-- A near-identical repeat 20 ms later with enough pressure to pass the
resistive pressure threshold. -/
def c9touch : TouchPoint :=
  { x := 52, y := 50, timestamp := 120, pressure := 300, area := 10, valid := true }

/-- Config with gesture gating enabled, otherwise capacitive defaults
(edge-swipe threshold 50, gesture timeout 500, min swipe distance 150). -/
def c3config : WaterRejectionConfig := { capacitiveDefaults with requireGesture := true }

/-- Gesture gate in Idle. -/
def c3idle : WRTState := initState 400 300 ScreenType.capacitive c3config

/-- Sample near the left edge (x = 10 < 50) at time 1000. -/
def c3touchEdge : TouchPoint := mkTouch 10 10 1000

/-- Gesture gate in Waiting: start point recorded at x = 0, deadline 1500. -/
def c3waiting : WRTState :=
  { c3idle with gestureState := GestureState.waiting,
                gestureStartPoint := mkTouch 0 10 1000, gestureStateTimeout := 1500 }

/-- Sample whose x exceeds the start point's x by exactly the
min-swipe-distance (150), before the deadline. -/
def c3swipeExact : TouchPoint := mkTouch 150 10 1200

/-- Sample whose x exceeds the start point's x by more than the
min-swipe-distance, before the deadline. -/
def c3swipeFull : TouchPoint := mkTouch 200 10 1200

/-- Gesture gate in Active with deadline 31200. -/
def c3active : WRTState :=
  { c3idle with gestureState := GestureState.gActive, gestureStateTimeout := 31200 }

/-- Sample during the Active window. -/
def c3activeTouch : TouchPoint := mkTouch 300 10 4000

/-- Engine whose zone cell (0,0) is active with its `uint8_t` in-window
counter already at 255. -/
def c10wrapState : WRTState :=
  { initState 400 300 ScreenType.capacitive capacitiveDefaults with
      zones := fun a b =>
        if a = 0 ∧ b = 0 then
          { zoneActive := true, activationTime := 0, touchCount := 255, lastTouchTime := 0 }
        else defaultZone }

/-- Fresh engine used to instantiate the C10 hypothesis-free cell. -/
def c10state : WRTState := initState 400 300 ScreenType.capacitive capacitiveDefaults

/-- An in-bounds touch mapping to zone cell (0,0) on a 400×300 screen. -/
def c10touch : TouchPoint := mkTouch 5 5 1000

/-- An active zone cell touched at time 0. -/
def activeRecentZone : TouchZone :=
  { zoneActive := true, activationTime := 0, touchCount := 1, lastTouchTime := 0 }

/-- Zone grid whose cell (5,5) and its four edge-adjacent neighbors are
active and recent; everything else inactive.  The claim's spread count
(8 proper neighbors) is 4 here, the code's 3×3 count is 5. -/
def c5state : WRTState :=
  { initState 400 300 ScreenType.capacitive capacitiveDefaults with
      zones := fun a b =>
        if (a = 5 ∧ b = 5) ∨ (a = 4 ∧ b = 5) ∨ (a = 6 ∧ b = 5) ∨
            (a = 5 ∧ b = 4) ∨ (a = 5 ∧ b = 6) then activeRecentZone
        else defaultZone }

/-- Fresh engine used for the C5 witness. -/
def c5wstate : WRTState := initState 400 300 ScreenType.capacitive capacitiveDefaults

/-- Six samples at near-identical positions (displacements ≤ 2 pixels,
movement threshold 5), 80 ms apart so the rapid-repeat zone counter
never accrues, all within the 500 ms max-static-time of the last one.
The positions alternate between zone cells (0,0) and (1,0) of a 400×300
screen. -/
def c4samples : List TouchPoint :=
  [mkTouch 19 10 0, mkTouch 21 10 80, mkTouch 19 10 160,
   mkTouch 21 10 240, mkTouch 19 10 320, mkTouch 21 10 400]

/-- Fresh capacitive engine for the static-touch scenario. -/
def c4init : WRTState := initState 400 300 ScreenType.capacitive capacitiveDefaults

/-- The engine state after accepting all six samples of `c4samples`. -/
def c4state : WRTState := (runTouches c4samples c4init).2

/-- A seventh sample at the same position, 480 ms after the first, so
all six accepted history entries are static matches for it. -/
def c4seventh : TouchPoint := mkTouch 19 10 480

/-- Subtracting a `uint32_t` value from itself gives 0, for any
representative. -/
theorem sub32_self (a : Nat) : sub32 a a = 0 := by
  unfold sub32; omega

/-- The active-neighbor count only reads the `zoneActive` and
`activationTime` fields, so overwriting one cell's `touchCount` (what
the rapid-repeat path of `checkZoneActivity` does) never changes it. -/
theorem activeNeighborCount_touchCount_update (zs : Zones) (x y c zx zy now timeout : Nat) :
    activeNeighborCount (setZone zs x y { zs x y with touchCount := c }) zx zy now timeout =
      activeNeighborCount zs zx zy now timeout := by
  unfold activeNeighborCount
  refine List.countP_congr ?_
  intro d _
  simp only [neighborActive, setZone]
  by_cases h : ((zx : Int) + d.1).toNat = x ∧ ((zy : Int) + d.2).toNat = y
  · obtain ⟨h1, h2⟩ := h
    rw [h1, h2]
    simp
  · rw [if_neg h]

/-- C1: a sample whose x is outside [0, screenWidth) or whose y is
outside [0, screenHeight) makes `processTouch` return reject and leave
the whole engine state — counters, history, zone grid, gesture state and
debounce reference included — unchanged. -/
theorem oob_rejects_without_mutation (t : TouchPoint) (now : Nat) (s : WRTState)
    (h : outOfBounds t s = true) :
    processTouch t now s = (false, s) := by
  unfold processTouch
  rw [h]
  simp

/-- Witness for C1 at a concrete out-of-bounds sample. -/
theorem oob_rejects_without_mutation_witness :
    outOfBounds c1touch c1state = true ∧
      processTouch c1touch 0 c1state = (false, c1state) :=
  ⟨by decide, oob_rejects_without_mutation c1touch 0 c1state (by decide)⟩

/-- Counterexample to C7 as stated: for the resistive technology the wet
preset's max simultaneous touches equals the normal preset's (both 1),
so it is not strictly fewer. -/
theorem wet_not_strictly_fewer_touches_resistive :
    (calibrateConfig ScreenType.resistive true resistiveDefaults).maxSimultaneousTouches = 1 ∧
    (calibrateConfig ScreenType.resistive false resistiveDefaults).maxSimultaneousTouches = 1 ∧
    ¬ (calibrateConfig ScreenType.resistive true resistiveDefaults).maxSimultaneousTouches <
        (calibrateConfig ScreenType.resistive false resistiveDefaults).maxSimultaneousTouches := by
  decide

/-- C7 (amended): for each technology the wet preset has strictly
smaller max touch area, strictly shorter max static time and gesture
required (true wet, false normal); max simultaneous touches is strictly
fewer for capacitive (1 vs 2) but equal for resistive (1 vs 1). -/
theorem wet_presets_tighter (c : WaterRejectionConfig) :
    (calibrateConfig ScreenType.capacitive true c).maxTouchArea <
      (calibrateConfig ScreenType.capacitive false c).maxTouchArea ∧
    (calibrateConfig ScreenType.capacitive true c).maxStaticTime <
      (calibrateConfig ScreenType.capacitive false c).maxStaticTime ∧
    (calibrateConfig ScreenType.capacitive true c).maxSimultaneousTouches <
      (calibrateConfig ScreenType.capacitive false c).maxSimultaneousTouches ∧
    (calibrateConfig ScreenType.capacitive true c).requireGesture = true ∧
    (calibrateConfig ScreenType.capacitive false c).requireGesture = false ∧
    (calibrateConfig ScreenType.resistive true c).maxTouchArea <
      (calibrateConfig ScreenType.resistive false c).maxTouchArea ∧
    (calibrateConfig ScreenType.resistive true c).maxStaticTime <
      (calibrateConfig ScreenType.resistive false c).maxStaticTime ∧
    (calibrateConfig ScreenType.resistive true c).maxSimultaneousTouches =
      (calibrateConfig ScreenType.resistive false c).maxSimultaneousTouches ∧
    (calibrateConfig ScreenType.resistive true c).requireGesture = true ∧
    (calibrateConfig ScreenType.resistive false c).requireGesture = false := by
  simp [calibrateConfig]

/-- Counterexample to C8 as stated: after calibration the config still
carries the prior minMovement override (99), while the same call from
the default config yields 5, so the post-calibration config is not a
fixed preset determined only by technology × environment. -/
theorem calibrate_keeps_override :
    (calibrateConfig ScreenType.capacitive true c8base).minMovement = 99 ∧
    (calibrateConfig ScreenType.capacitive true capacitiveDefaults).minMovement = 5 := by
  decide

/-- C8 (amended): calibration is a partial update — minMovement, zone
timeout, gesture timeout, edge-swipe threshold, min-swipe-distance and
debounce interval always keep their prior values, as does the pressure
threshold on capacitive. -/
theorem calibrate_partial_update (st : ScreenType) (wet : Bool) (c : WaterRejectionConfig) :
    (calibrateConfig st wet c).minMovement = c.minMovement ∧
    (calibrateConfig st wet c).touchTimeout = c.touchTimeout ∧
    (calibrateConfig st wet c).gestureTimeout = c.gestureTimeout ∧
    (calibrateConfig st wet c).edgeSwipeThreshold = c.edgeSwipeThreshold ∧
    (calibrateConfig st wet c).swipeMinDistance = c.swipeMinDistance ∧
    (calibrateConfig st wet c).debounceTime = c.debounceTime ∧
    (calibrateConfig ScreenType.capacitive wet c).pressureThreshold = c.pressureThreshold := by
  cases st <;> cases wet <;> simp [calibrateConfig]

/-- C6: at the perfectly colinear sparse batch `c6line` the Pearson
coefficient has magnitude 1 (its squared test fires), but the code's
denominator — whose second factor is `n·sumY·sumY - sumY·sumY` instead
of the y-variance `n·sumY2 - sumY·sumY` — makes the code's colinearity
test not fire, so the water streak is let through; no degenerate-
denominator guard exists anywhere in the computation. -/
theorem colinearity_formula_bug :
    pearsonColinearReject c6line = true ∧
    codeColinearReject c6line = false ∧
    colinearityNumerator c6line = 60000 ∧
    pearsonDenSq c6line = 3600000000 ∧
    codeColinearityDenSq c6line = 13068000000 := by
  decide

/-- C9: on a resistive engine with nonzero debounce interval, an
in-bounds sample with sufficient pressure arriving within the debounce
window of the last accepted touch at a near-identical position (both
axes under the movement threshold) is accepted with the entire state —
history, zones, counters, debounce reference — left unchanged. -/
theorem debounce_fold_no_mutation (t : TouchPoint) (now : Nat) (s : WRTState)
    (hres : s.screenType = ScreenType.resistive)
    (hb : outOfBounds t s = false)
    (hp : s.config.pressureThreshold = 0 ∨ s.config.pressureThreshold ≤ t.pressure)
    (hd : 0 < s.config.debounceTime)
    (hwin : sub32 t.timestamp s.lastValidTouchTime < s.config.debounceTime)
    (hx : (t.x - s.lastValidTouch.x).natAbs < s.config.minMovement)
    (hy : (t.y - s.lastValidTouch.y).natAbs < s.config.minMovement) :
    processTouch t now s = (true, s) := by
  have hpr : ¬ (0 < s.config.pressureThreshold ∧ t.pressure < s.config.pressureThreshold) := by
    rcases hp with h | h <;> omega
  have hadm : resistiveAdmission t s = some true := by
    unfold resistiveAdmission
    rw [if_pos hres, if_neg hpr, if_pos hd, if_pos hwin, if_pos ⟨hx, hy⟩]
  unfold processTouch
  rw [hb, hadm]
  rfl

/-- Witness for C9 at a concrete resistive state and repeat sample. -/
theorem debounce_fold_no_mutation_witness :
    c9state.screenType = ScreenType.resistive ∧
    outOfBounds c9touch c9state = false ∧
    c9state.config.pressureThreshold ≤ c9touch.pressure ∧
    0 < c9state.config.debounceTime ∧
    sub32 c9touch.timestamp c9state.lastValidTouchTime < c9state.config.debounceTime ∧
    (c9touch.x - c9state.lastValidTouch.x).natAbs < c9state.config.minMovement ∧
    (c9touch.y - c9state.lastValidTouch.y).natAbs < c9state.config.minMovement ∧
    processTouch c9touch 120 c9state = (true, c9state) :=
  ⟨by decide, by decide, by decide, by decide, by decide, by decide, by decide,
    debounce_fold_no_mutation c9touch 120 c9state (by decide) (by decide)
      (Or.inr (by decide)) (by decide) (by decide) (by decide) (by decide)⟩

/-- Counterexample to C3 as stated: in Waiting, before the deadline, a
sample whose x exceeds the start point's x by exactly the
min-swipe-distance (150) is claimed to be approved and to activate the
gate, but the code's strict `>` comparison leaves the gate Waiting and
the sample unapproved. -/
theorem gesture_exact_min_swipe_not_approved :
    c3waiting.gestureState = GestureState.waiting ∧
    c3swipeExact.timestamp < c3waiting.gestureStateTimeout ∧
    c3swipeExact.x - c3waiting.gestureStartPoint.x = (c3waiting.config.swipeMinDistance : Int) ∧
    (validateGesture c3swipeExact c3waiting).1 = false ∧
    (validateGesture c3swipeExact c3waiting).2.gestureState = GestureState.waiting := by
  decide

/-- C3 (amended): the gesture gate's transitions, with the Waiting →
Active trigger being a swipe by strictly more than the
min-swipe-distance.  From Idle, a sample with x below the edge-swipe
threshold moves the gate to Waiting, records the start point, sets the
deadline to now + gestureTimeout (32-bit), and is itself not approved;
from Waiting at or before the deadline, a sample whose x exceeds the
start point's x by more than the min-swipe-distance is approved, the
gate becomes Active, and the deadline is reset to now + 30000 ms; from
Active at or before the deadline every sample is approved with the state
untouched. -/
theorem gesture_gate_transitions (t : TouchPoint) (s : WRTState) :
    (s.gestureState = GestureState.idle → t.x < (s.config.edgeSwipeThreshold : Int) →
      validateGesture t s =
        (false, { s with gestureState := GestureState.waiting,
                         gestureStateTimeout := add32 t.timestamp s.config.gestureTimeout,
                         gestureStartPoint := t })) ∧
    (s.gestureState = GestureState.waiting → t.timestamp ≤ s.gestureStateTimeout →
      (s.config.swipeMinDistance : Int) < t.x - s.gestureStartPoint.x →
      validateGesture t s =
        (true, { s with gestureState := GestureState.gActive,
                        gestureStateTimeout := add32 t.timestamp 30000 })) ∧
    (s.gestureState = GestureState.gActive → t.timestamp ≤ s.gestureStateTimeout →
      validateGesture t s = (true, s)) := by
  refine ⟨fun h1 h2 => ?_, fun h1 h2 h3 => ?_, fun h1 h2 => ?_⟩
  · simp only [validateGesture, h1]
    rw [if_pos h2]
  · simp only [validateGesture, h1]
    rw [if_neg (by omega : ¬ s.gestureStateTimeout < t.timestamp), if_pos h3]
  · simp only [validateGesture, h1]
    rw [if_neg (by omega : ¬ s.gestureStateTimeout < t.timestamp)]

/-- Witness for the three amended C3 transitions at concrete states. -/
theorem gesture_gate_transitions_witness :
    (c3idle.gestureState = GestureState.idle ∧
      c3touchEdge.x < (c3idle.config.edgeSwipeThreshold : Int) ∧
      validateGesture c3touchEdge c3idle =
        (false, { c3idle with gestureState := GestureState.waiting,
                              gestureStateTimeout :=
                                add32 c3touchEdge.timestamp c3idle.config.gestureTimeout,
                              gestureStartPoint := c3touchEdge })) ∧
    (c3waiting.gestureState = GestureState.waiting ∧
      c3swipeFull.timestamp ≤ c3waiting.gestureStateTimeout ∧
      (c3waiting.config.swipeMinDistance : Int) < c3swipeFull.x - c3waiting.gestureStartPoint.x ∧
      validateGesture c3swipeFull c3waiting =
        (true, { c3waiting with gestureState := GestureState.gActive,
                                gestureStateTimeout := add32 c3swipeFull.timestamp 30000 })) ∧
    (c3active.gestureState = GestureState.gActive ∧
      c3activeTouch.timestamp ≤ c3active.gestureStateTimeout ∧
      validateGesture c3activeTouch c3active = (true, c3active)) :=
  ⟨⟨by decide, by decide,
      (gesture_gate_transitions c3touchEdge c3idle).1 (by decide) (by decide)⟩,
   ⟨by decide, by decide, by decide,
      (gesture_gate_transitions c3swipeFull c3waiting).2.1 (by decide) (by decide) (by decide)⟩,
   ⟨by decide, by decide,
      (gesture_gate_transitions c3activeTouch c3active).2.2 (by decide) (by decide)⟩⟩

/-- Counterexample to C5 as stated: with the sample's own cell and its
four edge-adjacent neighbors active and recent, the claim's count over
the 8 proper neighbors is 4 — not more than 4, so the claim predicts no
rejection — yet `checkZoneActivity` rejects, because the code's loop
includes the `(0,0)` offset and counts 5; the rapid-repeat path is not
involved (the cell's activation is 200 ms old). -/
theorem zone_spread_includes_center :
    specNeighborCount c5state.zones 5 5 200 c5state.config.touchTimeout = 4 ∧
    activeNeighborCount c5state.zones 5 5 200 c5state.config.touchTimeout = 5 ∧
    ¬ sub32 200 (c5state.zones 5 5).activationTime < 100 ∧
    (checkZoneActivity 5 5 200 c5state).1 = true := by
  decide

/-- C5 (amended): whenever the rapid-repeat branch does not reject, the
zone-activity test rejects exactly when more than 4 cells of the 3×3
block centred on the sample's cell — the cell itself included — are
active with activation age under the configured zone timeout. -/
theorem zone_spread_counts_center (zx zy now : Nat) (s : WRTState)
    (h : ¬ ((s.zones zx zy).zoneActive = true ∧
            sub32 now (s.zones zx zy).activationTime < 100 ∧
            3 < inc8 (s.zones zx zy).touchCount)) :
    (checkZoneActivity zx zy now s).1 =
      decide (4 < activeNeighborCount s.zones zx zy now s.config.touchTimeout) := by
  unfold checkZoneActivity
  by_cases h1 : (s.zones zx zy).zoneActive = true ∧ sub32 now (s.zones zx zy).activationTime < 100
  · rw [if_pos h1]
    have h2 : ¬ 3 < inc8 (s.zones zx zy).touchCount := fun hc => h ⟨h1.1, h1.2, hc⟩
    simp only [if_neg h2]
    simp [activeNeighborCount_touchCount_update]
  · rw [if_neg h1]

/-- Witness for the amended C5 at a fresh engine: no cell active, so the
spread count is 0 and the test does not fire. -/
theorem zone_spread_counts_center_witness :
    ¬ ((c5wstate.zones 3 3).zoneActive = true ∧
        sub32 500 (c5wstate.zones 3 3).activationTime < 100 ∧
        3 < inc8 (c5wstate.zones 3 3).touchCount) ∧
    (checkZoneActivity 3 3 500 c5wstate).1 =
      decide (4 < activeNeighborCount c5wstate.zones 3 3 500 c5wstate.config.touchTimeout) :=
  ⟨by decide, zone_spread_counts_center 3 3 500 c5wstate (by decide)⟩

/-- Counterexample to C10's "never decreases except through the decay
sweep": the in-window counter is a `uint8_t`, so the unconditional
increment wraps it from 255 to 0 inside `updateZones` itself. -/
theorem zone_counter_wraps :
    (c10wrapState.zones 0 0).touchCount = 255 ∧
    ((updateZones (mkTouch 5 5 1000) c10wrapState).zones 0 0).touchCount = 0 := by
  decide

/-- C10 (amended): `updateZones` assigns the cell's activation time from
the sample's timestamp before the elapsed-time comparison, so the
comparison is against an elapsed time of 0 and always succeeds: the
reset-to-1 branch is unreachable and the counter always becomes its old
value incremented modulo 256 (so it never decreases outside the decay
sweep except for the 8-bit wrap at 255). -/
theorem updateZones_always_increments (t : TouchPoint) (s : WRTState)
    (hx : zoneXof t s < 20) (hy : zoneYof t s < 20) :
    (updateZones t s).zones (zoneXof t s) (zoneYof t s) =
      { s.zones (zoneXof t s) (zoneYof t s) with
          zoneActive := true, activationTime := t.timestamp, lastTouchTime := t.timestamp,
          touchCount := inc8 (s.zones (zoneXof t s) (zoneYof t s)).touchCount } := by
  simp only [updateZones]
  rw [if_pos ⟨hx, hy⟩]
  simp [setZone, sub32_self]

/-- Witness for the amended C10 at a concrete fresh engine and touch. -/
theorem updateZones_always_increments_witness :
    zoneXof c10touch c10state < 20 ∧ zoneYof c10touch c10state < 20 ∧
    (updateZones c10touch c10state).zones (zoneXof c10touch c10state) (zoneYof c10touch c10state) =
      { c10state.zones (zoneXof c10touch c10state) (zoneYof c10touch c10state) with
          zoneActive := true, activationTime := c10touch.timestamp,
          lastTouchTime := c10touch.timestamp,
          touchCount :=
            inc8 (c10state.zones (zoneXof c10touch c10state)
              (zoneYof c10touch c10state)).touchCount } :=
  ⟨by decide, by decide, updateZones_always_increments c10touch c10state (by decide) (by decide)⟩

/-- The gesture gate never touches the rejected counter. -/
theorem validateGesture_wdr (t : TouchPoint) (s : WRTState) :
    (validateGesture t s).2.waterDropletsRejected = s.waterDropletsRejected := by
  unfold validateGesture
  rcases h : s.gestureState <;> simp only [h] <;>
    first
    | rfl
    | (split
       · rfl
       · first | rfl | (split <;> rfl))

/-- The zone-activity test only mutates the zone grid: the rejected
counter is untouched. -/
theorem checkZoneActivity_wdr (zx zy now : Nat) (s : WRTState) :
    (checkZoneActivity zx zy now s).2.waterDropletsRejected = s.waterDropletsRejected := by
  unfold checkZoneActivity
  dsimp only
  split
  · split <;> rfl
  · rfl

/-- The zone-activity test only mutates the zone grid: the history is
untouched. -/
theorem checkZoneActivity_history (zx zy now : Nat) (s : WRTState) :
    (checkZoneActivity zx zy now s).2.touchHistory = s.touchHistory := by
  unfold checkZoneActivity
  dsimp only
  split
  · split <;> rfl
  · rfl

/-- The zone-activity test only mutates the zone grid: the config is
untouched. -/
theorem checkZoneActivity_config (zx zy now : Nat) (s : WRTState) :
    (checkZoneActivity zx zy now s).2.config = s.config := by
  unfold checkZoneActivity
  dsimp only
  split
  · split <;> rfl
  · rfl

/-- The water-pattern test only mutates the zone grid: the rejected
counter is untouched. -/
theorem isWaterPattern_wdr (t : TouchPoint) (now : Nat) (s : WRTState) :
    (isWaterPattern t now s).2.waterDropletsRejected = s.waterDropletsRejected := by
  unfold isWaterPattern
  split
  · rfl
  · split
    · rfl
    · exact checkZoneActivity_wdr _ _ _ _

/-- The water-pattern test only mutates the zone grid: the history is
untouched. -/
theorem isWaterPattern_history (t : TouchPoint) (now : Nat) (s : WRTState) :
    (isWaterPattern t now s).2.touchHistory = s.touchHistory := by
  unfold isWaterPattern
  split
  · rfl
  · split
    · rfl
    · exact checkZoneActivity_history _ _ _ _

/-- The water-pattern test only mutates the zone grid: the config is
untouched. -/
theorem isWaterPattern_config (t : TouchPoint) (now : Nat) (s : WRTState) :
    (isWaterPattern t now s).2.config = s.config := by
  unfold isWaterPattern
  split
  · rfl
  · split
    · rfl
    · exact checkZoneActivity_config _ _ _ _

/-- Recording an accepted sample in history does not touch the rejected
counter. -/
theorem updateHistory_wdr (t : TouchPoint) (s : WRTState) :
    (updateHistory t s).waterDropletsRejected = s.waterDropletsRejected := rfl

/-- Updating the zone cell of an accepted sample does not touch the
rejected counter. -/
theorem updateZones_wdr (t : TouchPoint) (s : WRTState) :
    (updateZones t s).waterDropletsRejected = s.waterDropletsRejected := by
  unfold updateZones
  dsimp only
  split <;> rfl

/-- C2: the rejected counter after a `processTouch` call is bumped
exactly when the sample reached the water-pattern stage (in bounds,
past the resistive admission checks, approved by the gesture gate) and
one of the water-pattern tests — area, zone activity or static touch —
hit; every other outcome, including out-of-bounds, insufficient
pressure, debounce-window and gesture-gate rejections, leaves the
counter unchanged; and whenever the counter changed the call reported a
plain reject. -/
theorem rejected_counter_increments_only_on_water (t : TouchPoint) (now : Nat) (s : WRTState) :
    ((processTouch t now s).2.waterDropletsRejected =
      if reachesWaterTests t s && waterHit t now (gateState t s) then
        inc32 s.waterDropletsRejected
      else s.waterDropletsRejected) ∧
    ((processTouch t now s).1 = false ∨
      (processTouch t now s).2.waterDropletsRejected = s.waterDropletsRejected) := by
  unfold processTouch reachesWaterTests gateState waterHit
  cases hb : outOfBounds t s
  · cases ha : resistiveAdmission t s
    · cases hrg : s.config.requireGesture
      · simp only [ha, hrg, Bool.false_eq_true, if_false, Option.isNone_none,
          Bool.not_false, Bool.true_and, Bool.true_or, if_true]
        cases hw : (isWaterPattern t now s).1
        · cases hst : isStaticTouch t (isWaterPattern t now s).2
          · simp only [hw, hst, Bool.false_eq_true, if_false, Bool.false_or, Bool.and_false]
            refine ⟨?_, Or.inr ?_⟩ <;>
              simp [updateZones_wdr, updateHistory_wdr, isWaterPattern_wdr]
          · simp only [hw, hst, Bool.false_eq_true, if_false, if_true, Bool.false_or,
              Bool.and_true]
            exact ⟨by simp [isWaterPattern_wdr], Or.inl (by simp)⟩
        · simp only [hw, if_true, Bool.true_or, Bool.and_true]
          exact ⟨by simp [isWaterPattern_wdr], Or.inl (by simp)⟩
      · simp only [ha, hrg, Option.isNone_none, Bool.not_true, Bool.false_or,
          Bool.true_and, if_true]
        cases hg : (validateGesture t s).1
        · simp only [hg, Bool.false_eq_true, if_false, Bool.and_false, Bool.false_and]
          exact ⟨(validateGesture_wdr t s).symm ▸ rfl, Or.inl (by simp)⟩
        · simp only [hg, if_true, Bool.true_and]
          cases hw : (isWaterPattern t now (validateGesture t s).2).1
          · cases hst : isStaticTouch t (isWaterPattern t now (validateGesture t s).2).2
            · simp only [hw, hst, Bool.false_eq_true, if_false, Bool.false_or, Bool.and_false]
              refine ⟨?_, Or.inr ?_⟩ <;>
                simp [updateZones_wdr, updateHistory_wdr, isWaterPattern_wdr,
                  validateGesture_wdr]
            · simp only [hw, hst, Bool.false_eq_true, if_false, if_true, Bool.false_or,
                Bool.and_true]
              exact ⟨by simp [isWaterPattern_wdr, validateGesture_wdr], Or.inl (by simp)⟩
          · simp only [hw, if_true, Bool.true_or, Bool.and_true]
            exact ⟨by simp [isWaterPattern_wdr, validateGesture_wdr], Or.inl (by simp)⟩
    · simp only [ha, Option.isNone_some, Bool.and_false, Bool.false_and,
        Bool.false_eq_true, if_false]
      exact ⟨by simp, Or.inr (by simp)⟩
  · simp only [hb, Bool.not_true, Bool.false_and, Bool.false_eq_true, if_false, if_true]
    exact ⟨by simp, Or.inl (by simp)⟩

/-- Counterexample to C4 as stated: all six samples of `c4samples` are
accepted — in particular the sixth, at a near-identical position within
max-static-time of five already-accepted samples, which the claim says
the static-touch test rejects (the code demands strictly more than 5
history matches, and five prior samples give exactly 5). -/
theorem sixth_static_sample_accepted :
    (runTouches c4samples c4init).1 = [true, true, true, true, true, true] ∧
    ((mkTouch 21 10 400).x - (mkTouch 19 10 0).x).natAbs < capacitiveDefaults.minMovement ∧
    sub32 400 0 < capacitiveDefaults.maxStaticTime := by
  decide

/-- C4 (amended): a sample that reaches the static-touch test (in
bounds, past admission, no gesture gating, area and zone tests passed)
with strictly more than five matching accepted history entries — six
suffice — is rejected, the rejected counter is bumped, and the sample is
not appended to history; with exactly five prior matches the sample is
accepted instead (see the counterexample). -/
theorem static_rejects_after_more_than_five (t : TouchPoint) (now : Nat) (s : WRTState)
    (hb : outOfBounds t s = false)
    (ha : resistiveAdmission t s = none)
    (hg : s.config.requireGesture = false)
    (hw : (isWaterPattern t now s).1 = false)
    (hs : 5 < (s.touchHistory.filter (staticMatch s.config t)).length) :
    (processTouch t now s).1 = false ∧
    (processTouch t now s).2.waterDropletsRejected = inc32 s.waterDropletsRejected ∧
    (processTouch t now s).2.touchHistory = s.touchHistory := by
  have hst : isStaticTouch t (isWaterPattern t now s).2 = true := by
    unfold isStaticTouch
    rw [isWaterPattern_history, isWaterPattern_config]
    exact decide_eq_true hs
  unfold processTouch
  simp only [hb, ha, hg, Bool.false_eq_true, if_false, if_true, hw, hst]
  exact ⟨by simp, by simp [isWaterPattern_wdr], by simp [isWaterPattern_history]⟩

/-- Witness for the amended C4: after the six accepted samples of
`c4samples`, the seventh sample `c4seventh` meets every hypothesis and
is rejected as static with the counter bumped. -/
theorem static_rejects_after_more_than_five_witness :
    outOfBounds c4seventh c4state = false ∧
    resistiveAdmission c4seventh c4state = none ∧
    c4state.config.requireGesture = false ∧
    (isWaterPattern c4seventh 480 c4state).1 = false ∧
    5 < (c4state.touchHistory.filter (staticMatch c4state.config c4seventh)).length ∧
    (processTouch c4seventh 480 c4state).1 = false ∧
    (processTouch c4seventh 480 c4state).2.waterDropletsRejected =
      inc32 c4state.waterDropletsRejected ∧
    (processTouch c4seventh 480 c4state).2.touchHistory = c4state.touchHistory := by
  refine ⟨by decide, by decide, by decide, by decide, by decide, ?_⟩
  have h := static_rejects_after_more_than_five c4seventh 480 c4state
    (by decide) (by decide) (by decide) (by decide) (by decide)
  exact ⟨h.1, h.2.1, h.2.2⟩

end WaterRejection
